import Mathlib

/-!
Shallow embedding of the task-bot core (team task tracker):
the task store operations from `database.py`, the limit checks and
deadline validator from `utils/validators.py`, the reminder sweep and
daily digest from `scheduler/reminders.py`, and the status-change
callback handlers from `handlers/callbacks.py`.

Timestamps are modelled as integers (minutes); the SQLite rows become
Lean structures, and each Python function becomes an executable Lean
definition over an explicit `DB` state.
-/

namespace TeamBot

/-- Row of the `tasks` table (`database.py`, `_create_tables`). -/
structure Task where
  task_id : Nat
  team_id : Nat
  title : String
  description : Option String
  assignee_id : Option Nat
  author_id : Nat
  deadline : Option Int
  priority : String
  status : String
  tags : Option String
  created_at : Int
  updated_at : Int
  completed_at : Option Int
  deriving Repr, DecidableEq

/-- Row of the `teams` table. -/
structure Team where
  team_id : Nat
  name : String
  owner_id : Nat
  invite_code : String
  subscription_type : String
  subscription_expires : Option Int
  deriving Repr, DecidableEq

/-- Row of the `team_members` table. -/
structure Member where
  team_id : Nat
  user_id : Nat
  role : String
  deriving Repr, DecidableEq

/-- The task store: the tables the verified claims touch.  `reminders`
is the dispatch ledger of (task id, reminder type) pairs. -/
structure DB where
  teams : List Team
  members : List Member
  tasks : List Task
  reminders : List (Nat × String)
  deriving Repr, DecidableEq

/-- `Database.get_task`: `SELECT * FROM tasks WHERE task_id = ?` then
`fetchone` — the first matching row. -/
def getTask (db : DB) (task_id : Nat) : Option Task :=
  db.tasks.find? (fun t => t.task_id == task_id)

/-- `Database.get_team`. -/
def getTeam (db : DB) (team_id : Nat) : Option Team :=
  db.teams.find? (fun t => t.team_id == team_id)

/-- SQL `COALESCE` of two nullable values: the first non-null one. -/
def coalesce (a b : Option Int) : Option Int :=
  match a with
  | some x => some x
  | none => b

/-- The row update performed by `Database.update_task_status` on a
matching row: `SET status = ?, updated_at = ?, completed_at =
COALESCE(?, completed_at)` where the bound completion time is `now`
when the new status is `done` and SQL NULL otherwise. -/
def applyStatus (status : String) (now : Int) (t : Task) : Task :=
  { t with
    status := status
    updated_at := now
    completed_at :=
      coalesce (if status == "done" then some now else none) t.completed_at }

/-- `Database.update_task_status` (database.py lines 344-360): updates
the matching row and returns True (False only on a store failure,
which the embedding does not model).  No validation of `status`. -/
def update_task_status (db : DB) (task_id : Nat) (status : String)
    (now : Int) : DB × Bool :=
  ({ db with
      tasks := db.tasks.map (fun t =>
        if t.task_id == task_id then applyStatus status now t else t) },
   true)

/-- `Database.get_active_tasks_count`: `COUNT(*)` of the tasks of the team
with status in (todo, in_progress). -/
def get_active_tasks_count (db : DB) (team_id : Nat) : Nat :=
  (db.tasks.filter (fun t =>
    t.team_id == team_id &&
      (t.status == "todo" || t.status == "in_progress"))).length

/-- `Database.get_team_member_count`. -/
def get_team_member_count (db : DB) (team_id : Nat) : Nat :=
  (db.members.filter (fun m => m.team_id == team_id)).length

/-- One entry of `SUBSCRIPTION_LIMITS` (config.py). -/
structure Limits where
  max_members : Nat
  max_tasks : Nat
  reminders : Bool
  calendar_export : Bool
  analytics : Bool
  deriving Repr, DecidableEq

/-- `SUBSCRIPTION_LIMITS["free"]` with the default env values
(FREE_MEMBER_LIMIT=3, FREE_TASK_LIMIT=20). -/
def freeLimits : Limits := ⟨3, 20, false, false, false⟩

/-- `SUBSCRIPTION_LIMITS["pro"]` (PRO_MEMBER_LIMIT default 15). -/
def proLimits : Limits := ⟨15, 999999, true, true, true⟩

/-- `SUBSCRIPTION_LIMITS["enterprise"]`. -/
def enterpriseLimits : Limits := ⟨999999, 999999, true, true, true⟩

/-- The `SUBSCRIPTION_LIMITS` dict as an association list. -/
def SUBSCRIPTION_LIMITS : List (String × Limits) :=
  [("free", freeLimits), ("pro", proLimits), ("enterprise", enterpriseLimits)]

/-- `SUBSCRIPTION_LIMITS.get(plan, SUBSCRIPTION_LIMITS["free"])`. -/
def limitsGet (plan : String) : Limits :=
  (SUBSCRIPTION_LIMITS.lookup plan).getD freeLimits

/-- Result dict of `check_task_limit` / `check_member_limit`
(utils/validators.py): either the team-not-found error dict or the
structured decision with keys allowed/current/limit/plan. -/
inductive LimitCheck where
  | notFound (allowed : Bool) (error : String)
  | decision (allowed : Bool) (current : Nat) (limit : Nat) (plan : String)
  deriving Repr, DecidableEq

/-- `check_task_limit` (utils/validators.py lines 14-34). -/
def check_task_limit (db : DB) (team_id : Nat) : LimitCheck :=
  match getTeam db team_id with
  | none => .notFound false "Команда не найдена"
  | some team =>
    let plan := team.subscription_type
    let limits := limitsGet plan
    let current := get_active_tasks_count db team_id
    .decision (current < limits.max_tasks) current limits.max_tasks plan

/-- `check_member_limit` (utils/validators.py lines 37-57). -/
def check_member_limit (db : DB) (team_id : Nat) : LimitCheck :=
  match getTeam db team_id with
  | none => .notFound false "Команда не найдена"
  | some team =>
    let plan := team.subscription_type
    let limits := limitsGet plan
    let current := get_team_member_count db team_id
    .decision (current < limits.max_members) current limits.max_members plan

/-- Python `datetime` at the resolution the bot uses (the parsed
deadlines have second = microsecond = 0; comparisons are modelled at
minute resolution). -/
structure DateTime where
  year : Nat
  month : Nat
  day : Nat
  hour : Nat
  minute : Nat
  deriving Repr, DecidableEq

/-- Mixed-radix encoding of a `DateTime`; on range-validated values it
is strictly monotone in the lexicographic (chronological) order, so it
models the Python `datetime` comparison. -/
def DateTime.toMin (d : DateTime) : Nat :=
  (((d.year * 12 + d.month) * 31 + d.day) * 24 + d.hour) * 60 + d.minute

/-- Gregorian leap-year rule, as used by `datetime`. -/
def isLeap (y : Nat) : Bool :=
  y % 4 == 0 && (y % 100 != 0 || y % 400 == 0)

/-- Number of days in a month, as validated by `datetime.strptime`. -/
def daysInMonth (y m : Nat) : Nat :=
  if m == 2 then (if isLeap y then 29 else 28)
  else if m == 4 || m == 6 || m == 9 || m == 11 then 30
  else 31

/-- Characters removed by Python `str.strip()` (the whitespace that
can realistically surround a chat message). -/
def isStripped (c : Char) : Bool :=
  c == ' ' || c == '\t' || c == '\n' || c == '\r'

/-- `str.strip()`: drop leading and trailing whitespace. -/
def stripChars (cs : List Char) : List Char :=
  ((cs.dropWhile isStripped).reverse.dropWhile isStripped).reverse

/-- Split on a single-character separator, like `str.split(sep)` for
the separators used by the date formats. -/
def splitOnChar (sep : Char) : List Char → List (List Char)
  | [] => [[]]
  | c :: rest =>
    let r := splitOnChar sep rest
    if c == sep then [] :: r
    else
      match r with
      | h :: t => (c :: h) :: t
      | [] => [[c]]

/-- Decimal value of a digit string. -/
def digitsToNat (cs : List Char) : Nat :=
  cs.foldl (fun n c => n * 10 + (c.toNat - 48)) 0

/-- One numeric `strptime` field: between `lo` and `hi` digits (the
`%d/%m/%H/%M` patterns accept 1-2 digits, `%Y` exactly 4). -/
def parseNum (lo hi : Nat) (cs : List Char) : Option Nat :=
  if lo ≤ cs.length ∧ cs.length ≤ hi ∧ cs.all Char.isDigit then
    some (digitsToNat cs)
  else none

/-- Range validation `datetime.strptime` performs on the parsed
fields (MINYEAR = 1, MAXYEAR = 9999, day checked against the month). -/
def mkDateTime (y m d h mi : Nat) : Option DateTime :=
  if 1 ≤ y ∧ y ≤ 9999 ∧ 1 ≤ m ∧ m ≤ 12 ∧ 1 ≤ d ∧ d ≤ daysInMonth y m
      ∧ h ≤ 23 ∧ mi ≤ 59 then
    some ⟨y, m, d, h, mi⟩
  else none

/-- Three date components separated by `sep`. -/
def splitDate (sep : Char) (cs : List Char) :
    Option (List Char × List Char × List Char) :=
  match splitOnChar sep cs with
  | [a, b, c] => some (a, b, c)
  | _ => none

/-- An `HH:MM` time component. -/
def splitTime (cs : List Char) : Option (List Char × List Char) :=
  match splitOnChar ':' cs with
  | [h, m] => some (h, m)
  | _ => none

/-- strptime with a day-month-year date pattern (separator `.` or `/`)
and no time part: hour and minute default to 0. -/
def strptimeDMY (sep : Char) (cs : List Char) : Option DateTime := do
  let (ds, ms, ys) ← splitDate sep cs
  let d ← parseNum 1 2 ds
  let m ← parseNum 1 2 ms
  let y ← parseNum 4 4 ys
  mkDateTime y m d 0 0

/-- strptime with an ISO year-month-day date pattern and no time part. -/
def strptimeYMD (cs : List Char) : Option DateTime := do
  let (ys, ms, ds) ← splitDate '-' cs
  let y ← parseNum 4 4 ys
  let m ← parseNum 1 2 ms
  let d ← parseNum 1 2 ds
  mkDateTime y m d 0 0

/-- Splits a format of the shape `date HH:MM` on its single space and
parses the date part with `dateFmt` and the time part as `%H:%M`. -/
def strptimeWithTime (dateFmt : List Char → Option DateTime)
    (cs : List Char) : Option DateTime :=
  match splitOnChar ' ' cs with
  | [ds, ts] => do
    let dt ← dateFmt ds
    let (hs, mis) ← splitTime ts
    let h ← parseNum 1 2 hs
    let mi ← parseNum 1 2 mis
    mkDateTime dt.year dt.month dt.day h mi
  | _ => none

/-- The ordered format list of `validate_deadline`
(utils/validators.py lines 82-89). -/
def deadlineFormats : List (List Char → Option DateTime) :=
  [strptimeWithTime (strptimeDMY '.'), strptimeDMY '.',
   strptimeWithTime strptimeYMD, strptimeYMD,
   strptimeWithTime (strptimeDMY '/'), strptimeDMY '/']

/-- The format loop of `validate_deadline`: the first format that
parses wins. -/
def firstParse (s : String) : Option DateTime :=
  deadlineFormats.findSome? (fun fmt => fmt (stripChars s.data))

/-- `validate_deadline` (utils/validators.py lines 75-101): parse
`text.strip()` against the ordered format list; within the first
successful parse, a date with `dt < datetime.now()` returns None,
otherwise the parsed date is returned. -/
def validate_deadline (text : String) (now : DateTime) : Option DateTime :=
  match firstParse text with
  | none => none
  | some dt => if dt.toMin < now.toMin then none else some dt

/-- ConversationHandler states from config.py, `range(6)`. -/
def STATE_TITLE : Nat := 0
/-- Second wizard state. -/
def STATE_DESCRIPTION : Nat := 1
/-- Third wizard state. -/
def STATE_ASSIGNEE : Nat := 2
/-- Fourth wizard state (deadline input). -/
def STATE_DEADLINE : Nat := 3
/-- Fifth wizard state. -/
def STATE_PRIORITY : Nat := 4
/-- Sixth wizard state. -/
def STATE_CONFIRM : Nat := 5

/-- The wizard draft `context.user_data["new_task"]`; fields filled in
later steps are Options. -/
structure Draft where
  team_id : Nat
  title : String
  description : Option String
  assignee_id : Option Nat
  deadline : Option DateTime
  priority : Option String
  deriving Repr, DecidableEq

/-- `task_deadline_received` (handlers/tasks.py lines 168-192): strip
the message text, validate it; on failure re-prompt and stay in
STATE_DEADLINE with the draft untouched, on success store the deadline
and move to STATE_PRIORITY. -/
def task_deadline_received (draft : Draft) (text : String) (now : DateTime) :
    Nat × Draft :=
  match validate_deadline text now with
  | none => (STATE_DEADLINE, draft)
  | some dt => (STATE_PRIORITY, { draft with deadline := some dt })

/-- `Database.is_reminder_sent` (database.py lines 429-435): a row for
(task, reminder type) exists in the dispatch ledger. -/
def is_reminder_sent (db : DB) (task_id : Nat) (kind : String) : Bool :=
  db.reminders.any (fun r => r.1 == task_id && r.2 == kind)

/-- `Database.mark_reminder_sent` (database.py lines 437-446): insert
a dispatch row. -/
def mark_reminder_sent (db : DB) (task_id : Nat) (kind : String) : DB :=
  { db with reminders := db.reminders ++ [(task_id, kind)] }

/-- `Database.get_upcoming_tasks`: non-terminal tasks joined with
their team whose deadline lies in [start, fin] (SQL `BETWEEN` is
inclusive; `team_id` is the teams primary key, so the join is an
existence filter). -/
def get_upcoming_tasks (db : DB) (start fin : Int) : List Task :=
  db.tasks.filter (fun t =>
    (t.status == "todo" || t.status == "in_progress") &&
    (match t.deadline with
     | some d => decide (start ≤ d) && decide (d ≤ fin)
     | none => false) &&
    db.teams.any (fun tm => tm.team_id == t.team_id))

/-- `_format_reminder` (scheduler/reminders.py lines 115-141).  The
`strftime` rendering of the deadline is abstracted to the decimal
timestamp (injective); a missing deadline renders as the empty string,
like the handled `ValueError/TypeError`. -/
def format_reminder (task : Task) (kind : String) : String :=
  let deadline_str :=
    match task.deadline with
    | some t => toString t
    | none => ""
  let header :=
    if kind == "24h" then "⏰ <b>Напоминание!</b>"
    else if kind == "3h" then "⚠️ <b>Срочно!</b>"
    else "🔥 <b>ДЕДЛАЙН СЕЙЧАС!</b>"
  let time_info :=
    if kind == "24h" then "должна быть выполнена <b>завтра</b>"
    else if kind == "3h" then "должна быть выполнена <b>через 3 часа</b>"
    else "должна быть выполнена <b>прямо сейчас</b>"
  header ++ "\n\n" ++ "📝 Задача <b>#" ++ toString task.task_id ++ "</b> — "
    ++ task.title ++ "\n" ++ "📅 Дедлайн: " ++ deadline_str ++ "\n\n"
    ++ "Задача " ++ time_info ++ "!\n\n" ++ "Открыть: /task "
    ++ toString task.task_id

/-- Loop body of `check_upcoming_deadlines` for one candidate task:
skip if a dispatch record exists, skip if no assignee, otherwise
attempt delivery; only when the send returns (does not raise) the
dispatch record is inserted and the delivery is logged.  `deliver`
is the chat transport: `true` means `bot.send_message` returned,
`false` means it raised (the caught branch). -/
def processTask (deliver : Nat → String → Bool) (kind : String)
    (acc : DB × List (Nat × String)) (task : Task) :
    DB × List (Nat × String) :=
  if is_reminder_sent acc.1 task.task_id kind then acc
  else
    match task.assignee_id with
    | none => acc
    | some aid =>
      if deliver aid (format_reminder task kind) then
        (mark_reminder_sent acc.1 task.task_id kind,
         acc.2 ++ [(task.task_id, kind)])
      else acc

/-- One window of the deadline sweep: fetch the candidates and process
each in order. -/
def sweepWindow (deliver : Nat → String → Bool) (kind : String)
    (start fin : Int) (acc : DB × List (Nat × String)) :
    DB × List (Nat × String) :=
  (get_upcoming_tasks acc.1 start fin).foldl (processTask deliver kind) acc

/-- The three reminder windows of `check_upcoming_deadlines`
(scheduler/reminders.py lines 61-74), in iteration order, with bounds
in minutes: 24h = [now+23h30m, now+24h30m], 3h = [now+2h30m,
now+3h30m], now = [now-15m, now+15m]. -/
def reminderWindows (now : Int) : List (String × Int × Int) :=
  [("24h", now + 1410, now + 1470),
   ("3h", now + 150, now + 210),
   ("now", now - 15, now + 15)]

/-- `check_upcoming_deadlines` (scheduler/reminders.py lines 53-111):
the full sweep over the three windows.  Returns the updated store and
the list of (task, window) pairs whose delivery succeeded. -/
def check_upcoming_deadlines (db : DB) (now : Int)
    (deliver : Nat → String → Bool) : DB × List (Nat × String) :=
  (reminderWindows now).foldl
    (fun acc w => sweepWindow deliver w.1 w.2.1 w.2.2 acc) (db, [])

/-- SQL `ORDER BY deadline ASC` over rows that all carry a deadline. -/
def sortByDeadline (l : List Task) : List Task :=
  l.insertionSort (fun a b => a.deadline.getD 0 ≤ b.deadline.getD 0)

/-- `Database.get_tasks_today`: the tasks of the team whose deadline falls
on the current civil date (a day is 1440 minutes) with status not in
(done, cancelled). -/
def get_tasks_today (db : DB) (now : Int) (team_id : Nat) : List Task :=
  sortByDeadline (db.tasks.filter (fun t =>
    t.team_id == team_id &&
    (match t.deadline with
     | some d => d.fdiv 1440 == now.fdiv 1440
     | none => false) &&
    !(t.status == "done" || t.status == "cancelled")))

/-- `Database.get_overdue_tasks` (database.py lines 460-469):
non-terminal tasks with deadline strictly before now, over all teams. -/
def get_overdue_tasks (db : DB) (now : Int) : List Task :=
  sortByDeadline (db.tasks.filter (fun t =>
    (t.status == "todo" || t.status == "in_progress") &&
    (match t.deadline with
     | some d => decide (d < now)
     | none => false)))

/-- The structured content of one daily-digest message: the per-team
sections that made it into the text (only non-empty ones are
appended) and the overdue entries shown (the first five). -/
structure DigestMessage where
  sections : List (String × List Task)
  overdue : List Task
  deriving Repr, DecidableEq

/-- The `SELECT DISTINCT tm.user_id, tm.team_id, t.name` join of
`send_daily_summary` (scheduler/reminders.py lines 152-156). -/
def digestRows (db : DB) : List (Nat × Nat × String) :=
  (db.members.flatMap (fun m =>
    (db.teams.filter (fun t => t.team_id == m.team_id)).map
      (fun t => (m.user_id, t.team_id, t.name)))).dedup

/-- The keys of the `user_teams` grouping dict: every enumerated
user. -/
def digestUsers (db : DB) : List Nat :=
  ((digestRows db).map (fun r => r.1)).dedup

/-- The `user_teams[uid]` list: the (team id, team name) pairs of one
rows of that user. -/
def userTeamRows (db : DB) (uid : Nat) : List (Nat × String) :=
  (digestRows db).filterMap (fun r =>
    if r.1 == uid then some (r.2.1, r.2.2) else none)

/-- The per-user body of `send_daily_summary` (lines 170-208): collect
the due-today tasks per team (keeping only non-empty sections) and the
overdue tasks of the user capped at five; `none` when `has_tasks` stays
false and no message is sent. -/
def buildDigest (db : DB) (now : Int) (uid : Nat) : Option DigestMessage :=
  let sections := ((userTeamRows db uid).map (fun tr =>
    (tr.2, (get_tasks_today db now tr.1).filter
      (fun t => t.assignee_id == some uid)))).filter
    (fun s => !s.2.isEmpty)
  let user_overdue := (get_overdue_tasks db now).filter
    (fun t => t.assignee_id == some uid)
  if sections.isEmpty && user_overdue.isEmpty then none
  else some ⟨sections, user_overdue.take 5⟩

/-- `send_daily_summary` (scheduler/reminders.py lines 145-213): the
delivery attempts of one digest run, one per user with a non-empty
digest (a send failure is caught and logged, so the attempt list does
not depend on the transport). -/
def send_daily_summary (db : DB) (now : Int) : List (Nat × DigestMessage) :=
  (digestUsers db).filterMap (fun uid =>
    (buildDigest db now uid).map (fun d => (uid, d)))

/-- `STATUS_EMOJI` from config.py. -/
def STATUS_EMOJI : List (String × String) :=
  [("todo", "⏳"), ("in_progress", "🔄"), ("done", "✅"), ("cancelled", "❌")]

/-- `STATUS_TEXT` from config.py. -/
def STATUS_TEXT : List (String × String) :=
  [("todo", "К выполнению"), ("in_progress", "В процессе"),
   ("done", "Выполнено"), ("cancelled", "Отменено")]

/-- Message body built by `notify_status_changed`
(utils/notifications.py lines 40-60). -/
def statusChangedMessage (task : Task) (new_status changed_by : String) :
    String :=
  let s_emoji := (STATUS_EMOJI.lookup new_status).getD "⚪️"
  let s_text := (STATUS_TEXT.lookup new_status).getD new_status
  "🔔 <b>Статус задачи изменён!</b>\n\n" ++ "📝 <b>#"
    ++ toString task.task_id ++ "</b> — " ++ task.title ++ "\n"
    ++ "📊 Новый статус: " ++ s_emoji ++ " " ++ s_text ++ "\n"
    ++ "👤 Изменил: " ++ changed_by ++ "\n"

/-- `notify_status_changed`: the single delivery attempt to the
author (a send failure is caught inside, so the attempt always
happens). -/
def notify_status_changed (author_id : Nat) (task : Task)
    (new_status changed_by : String) : Nat × String :=
  (author_id, statusChangedMessage task new_status changed_by)

/-- Python `str.split(sep, maxsplit=2)` specialised to the underscore
separator of the callback data. -/
def joinUnderscore : List (List Char) → List Char
  | [] => []
  | [x] => x
  | x :: xs => x ++ '_' :: joinUnderscore xs

/-- `query.data.split("_", 2)` (handlers/callbacks.py line 195). -/
def splitStatusData (s : String) : List (List Char) :=
  match splitOnChar '_' s.data with
  | a :: b :: rest => if rest.isEmpty then [a, b] else [a, b, joinUnderscore rest]
  | parts => parts

/-- Python `int(...)` on a decimal string; `none` models the
`ValueError` it raises on anything else. -/
def parseIntChars (cs : List Char) : Option Nat :=
  if !cs.isEmpty && cs.all Char.isDigit then some (digitsToNat cs) else none

/-- Drops the matched characters of a pattern from the front. -/
def stripPrefixChars : List Char → List Char → Option (List Char)
  | [], cs => some cs
  | _ :: _, [] => none
  | p :: ps, c :: rest => if p == c then stripPrefixChars ps rest else none

/-- Python `str.replace(pat, "")`: remove every non-overlapping
occurrence, scanning left to right (fuel = input length keeps the
recursion structural). -/
def replaceAllFuel (pat : List Char) : Nat → List Char → List Char
  | _, [] => []
  | 0, cs => cs
  | fuel + 1, c :: rest =>
    match stripPrefixChars pat (c :: rest) with
    | some rem => replaceAllFuel pat fuel rem
    | none => c :: replaceAllFuel pat fuel rest

/-- `handle_status_callback` (handlers/callbacks.py lines 188-241):
parse `status_{task_id}_{new_status}`, update the status, and attempt
a status-change notification to the author unless the change was made
by the author.  Returns the updated store and the notification
attempts. -/
def handle_status_callback (db : DB) (user_id : Nat) (user_name : String)
    (data : String) (now : Int) : DB × List (Nat × String) :=
  match splitStatusData data with
  | [_, idcs, stcs] =>
    (match parseIntChars idcs with
     | none => (db, [])
     | some task_id =>
       let new_status := String.mk stcs
       match getTask db task_id with
       | none => (db, [])
       | some _ =>
         let upd := update_task_status db task_id new_status now
         if !upd.2 then (upd.1, [])
         else
           match getTask upd.1 task_id with
           | none => (upd.1, [])
           | some task1 =>
             if task1.author_id != user_id then
               (upd.1, [notify_status_changed task1.author_id task1
                 new_status user_name])
             else (upd.1, []))
  | _ => (db, [])

/-- `handle_cancel_task_callback` (handlers/callbacks.py lines
274-289): parse `cancel_{task_id}`, set the status to `cancelled` and
edit the message; no notification is attempted on this path. -/
def handle_cancel_task_callback (db : DB) (data : String) (now : Int) :
    DB × List (Nat × String) :=
  match parseIntChars (replaceAllFuel "cancel_".data data.data.length data.data) with
  | none => (db, [])
  | some task_id => ((update_task_status db task_id "cancelled" now).1, [])

/-! Concrete store fixtures used by the counterexamples and witnesses. -/

/-- A task row with neutral field values; fixtures override what they
need. -/
def baseTask : Task :=
  { task_id := 0
    team_id := 1
    title := "Задача"
    description := none
    assignee_id := none
    author_id := 10
    deadline := none
    priority := "medium"
    status := "todo"
    tags := none
    created_at := 0
    updated_at := 0
    completed_at := none }

/-- Fixture for C2: a task that has been `done` once (completed_at is
stamped) and has since regressed to in_progress. -/
def taskC2 : Task :=
  { baseTask with task_id := 1, status := "in_progress", completed_at := some 100 }

/-- Store for the C2 counterexample. -/
def dbC2 : DB := ⟨[], [], [taskC2], []⟩

/-- Fixture for C4: same shape as the C2 fixture. -/
def taskC4 : Task :=
  { baseTask with task_id := 1, status := "done", completed_at := some 100 }

/-- Store for the C4 witness. -/
def dbC4 : DB := ⟨[], [], [taskC4], []⟩

/-- Store for the C9 witness. -/
def dbC9 : DB := ⟨[], [], [{ baseTask with task_id := 1 }], []⟩

/-! Helper lemmas about the status update. -/

theorem applyStatus_task_id (s : String) (now : Int) (t : Task) :
    (applyStatus s now t).task_id = t.task_id := rfl

theorem find?_update_list (l : List Task) (id : Nat) (s : String) (now : Int) :
    (l.map (fun t => if t.task_id == id then applyStatus s now t else t)).find?
        (fun t => t.task_id == id)
      = (l.find? (fun t => t.task_id == id)).map (applyStatus s now) := by
  induction l with
  | nil => rfl
  | cons t ts ih =>
    by_cases h : t.task_id = id
    · simp [List.find?_cons, h, applyStatus_task_id, -List.find?_map]
    · simp only [beq_iff_eq] at ih
      simp [List.find?_cons, h, ih, -List.find?_map]

theorem getTask_update (db : DB) (id : Nat) (s : String) (now : Int) :
    getTask (update_task_status db id s now).1 id
      = (getTask db id).map (applyStatus s now) := by
  simpa [getTask, update_task_status] using find?_update_list db.tasks id s now

theorem applyStatus_done (now : Int) (t : Task) :
    applyStatus "done" now t
      = { t with status := "done", updated_at := now, completed_at := some now } :=
  rfl

theorem applyStatus_not_done {s : String} (h : s ≠ "done") (now : Int)
    (t : Task) : applyStatus s now t = { t with status := s, updated_at := now } := by
  simp [applyStatus, coalesce, h]

/-! The claims. -/

/-- C2, counterexample: task 1 was completed once (completed_at = 100)
and regressed to in_progress; re-entering `done` at time 300 changes
completed_at from 100 to 300, so the transition does not set
completed_at "only if it is not already set". -/
theorem C2_counterexample :
    (getTask dbC2 1).map Task.completed_at = some (some 100) ∧
    (getTask (update_task_status dbC2 1 "done" 300).1 1).map Task.completed_at
      = some (some 300) := by
  decide

/-- C2, amended: a status transition to `done` always stamps
completed_at with the current instant, overwriting any earlier value
(the bound COALESCE argument is non-null whenever the status is done);
re-entering `done` therefore moves completed_at to the new transition
time. -/
theorem C2_done_restamps_completed_at (db : DB) (id : Nat) (now : Int)
    (t : Task) (h : getTask db id = some t) :
    getTask (update_task_status db id "done" now).1 id
      = some { t with status := "done", updated_at := now, completed_at := some now } := by
  rw [getTask_update, h, Option.map_some', applyStatus_done]

/-- Witness for C2: the amended theorem applied to the concrete C2
fixture. -/
theorem C2_witness :
    getTask dbC2 1 = some taskC2 ∧
    getTask (update_task_status dbC2 1 "done" 300).1 1
      = some { taskC2 with status := "done", updated_at := 300, completed_at := some 300 } :=
  ⟨by decide, C2_done_restamps_completed_at dbC2 1 300 taskC2 (by decide)⟩

/-- C4: a transition of a completed task to any status other than
`done` rewrites only status and updated_at; completed_at (and every
other field) is preserved by the COALESCE with a NULL bound value. -/
theorem C4_regression_preserves_completed_at (db : DB) (id : Nat)
    (s : String) (now : Int) (t : Task) (c : Int)
    (h : getTask db id = some t) (hcomp : t.completed_at = some c)
    (hs : s ≠ "done") :
    getTask (update_task_status db id s now).1 id
      = some { t with status := s, updated_at := now } := by
  rw [getTask_update, h, Option.map_some', applyStatus_not_done hs]

/-- Witness for C4: a done-stamped task regressed to in_progress keeps
completed_at = 100 and every field except status and updated_at. -/
theorem C4_witness :
    getTask dbC4 1 = some taskC4 ∧ taskC4.completed_at = some 100 ∧
    getTask (update_task_status dbC4 1 "in_progress" 300).1 1
      = some { taskC4 with status := "in_progress", updated_at := 300 } :=
  ⟨by decide, by decide,
   C4_regression_preserves_completed_at dbC4 1 "in_progress" 300 taskC4 100
     (by decide) (by decide) (by decide)⟩

/-- C9: `update_task_status` validates nothing — for any string s,
including strings outside the status enumeration, it stores s as the
status of the matching task and returns True. -/
theorem C9_no_status_validation (db : DB) (id : Nat) (s : String)
    (now : Int) (t : Task) (h : getTask db id = some t) :
    (update_task_status db id s now).2 = true ∧
    (getTask (update_task_status db id s now).1 id).map Task.status = some s := by
  refine ⟨rfl, ?_⟩
  rw [getTask_update, h, Option.map_some']
  rfl

/-- Witness for C9: the string "blocked" is outside the status
enumeration and is stored verbatim with a True result. -/
theorem C9_witness :
    getTask dbC9 1 = some ({ baseTask with task_id := 1 } : Task) ∧
    ("blocked" ∉ (["todo", "in_progress", "done", "cancelled"] : List String)) ∧
    (update_task_status dbC9 1 "blocked" 50).2 = true ∧
    (getTask (update_task_status dbC9 1 "blocked" 50).1 1).map Task.status
      = some "blocked" :=
  ⟨by decide, by decide,
   (C9_no_status_validation dbC9 1 "blocked" 50
     ({ baseTask with task_id := 1 } : Task) (by decide)).1,
   (C9_no_status_validation dbC9 1 "blocked" 50
     ({ baseTask with task_id := 1 } : Task) (by decide)).2⟩

/-- Fixture for C5: a free-tier team holding exactly max_tasks = 20
active tasks. -/
def teamC5 : Team :=
  { team_id := 1
    name := "Alpha"
    owner_id := 10
    invite_code := "inv"
    subscription_type := "free"
    subscription_expires := none }

/-- Store for the C5 witness: 20 active (todo) tasks in team 1. -/
def dbC5 : DB :=
  ⟨[teamC5], [⟨1, 10, "owner"⟩],
   (List.range 20).map (fun i => { baseTask with task_id := i + 1 }), []⟩

/-- Fixture for C10: a team whose stored tier is not one of
free/pro/enterprise. -/
def teamC10 : Team :=
  { team_id := 2
    name := "Beta"
    owner_id := 11
    invite_code := "inv2"
    subscription_type := "gold"
    subscription_expires := none }

/-- Store for the C10 witness. -/
def dbC10 : DB :=
  ⟨[teamC10], [⟨2, 11, "owner"⟩],
   [{ baseTask with task_id := 1, team_id := 2 }], []⟩

/-- C5: for every existing team the task-limit check returns the
structured decision carrying allowed, current count, limit and tier
(it is a total function, so it cannot throw); and when the tier is
free and the active-task count equals the free max_tasks, the decision
has allowed = false. -/
theorem C5_task_limit_decision (db : DB) (team_id : Nat) (team : Team)
    (h : getTeam db team_id = some team) :
    check_task_limit db team_id
      = .decision
          (decide (get_active_tasks_count db team_id
            < (limitsGet team.subscription_type).max_tasks))
          (get_active_tasks_count db team_id)
          (limitsGet team.subscription_type).max_tasks
          team.subscription_type
    ∧ (team.subscription_type = "free" →
        get_active_tasks_count db team_id = freeLimits.max_tasks →
        check_task_limit db team_id
          = .decision false freeLimits.max_tasks freeLimits.max_tasks "free") := by
  constructor
  · simp [check_task_limit, h]
  · intro hfree hcount
    have hlf : limitsGet "free" = freeLimits := by decide
    simp [check_task_limit, h, hfree, hcount, hlf]

/-- Witness for C5: the decision for the concrete fixture is
allowed = false with current = limit = 20 and tier free. -/
theorem C5_witness :
    getTeam dbC5 1 = some teamC5 ∧
    teamC5.subscription_type = "free" ∧
    get_active_tasks_count dbC5 1 = freeLimits.max_tasks ∧
    check_task_limit dbC5 1
      = .decision false freeLimits.max_tasks freeLimits.max_tasks "free" :=
  ⟨by decide, by decide, by decide,
   (C5_task_limit_decision dbC5 1 teamC5 (by decide)).2 (by decide) (by decide)⟩

/-- C10: a stored tier outside free/pro/enterprise falls back to the
free limits table in both the task-creation and the member-addition
check; neither check fails, both return decisions computed against
the free limits. -/
theorem C10_unknown_tier_treated_as_free (db : DB) (team_id : Nat)
    (team : Team) (h : getTeam db team_id = some team)
    (hplan : team.subscription_type
      ∉ (["free", "pro", "enterprise"] : List String)) :
    limitsGet team.subscription_type = freeLimits ∧
    check_task_limit db team_id
      = .decision
          (decide (get_active_tasks_count db team_id < freeLimits.max_tasks))
          (get_active_tasks_count db team_id) freeLimits.max_tasks
          team.subscription_type ∧
    check_member_limit db team_id
      = .decision
          (decide (get_team_member_count db team_id < freeLimits.max_members))
          (get_team_member_count db team_id) freeLimits.max_members
          team.subscription_type := by
  have h1 : team.subscription_type ≠ "free" := fun he => hplan (by simp [he])
  have h2 : team.subscription_type ≠ "pro" := fun he => hplan (by simp [he])
  have h3 : team.subscription_type ≠ "enterprise" :=
    fun he => hplan (by simp [he])
  have b1 : (team.subscription_type == "free") = false :=
    beq_eq_false_iff_ne.mpr h1
  have b2 : (team.subscription_type == "pro") = false :=
    beq_eq_false_iff_ne.mpr h2
  have b3 : (team.subscription_type == "enterprise") = false :=
    beq_eq_false_iff_ne.mpr h3
  have hfree : limitsGet team.subscription_type = freeLimits := by
    simp [limitsGet, SUBSCRIPTION_LIMITS, List.lookup, b1, b2, b3]
  refine ⟨hfree, ?_, ?_⟩
  · simp [check_task_limit, h, hfree]
  · simp [check_member_limit, h, hfree]

/-- Witness for C10: the tier "gold" is treated exactly as free in
both checks. -/
theorem C10_witness :
    getTeam dbC10 2 = some teamC10 ∧
    teamC10.subscription_type ∉ (["free", "pro", "enterprise"] : List String) ∧
    limitsGet teamC10.subscription_type = freeLimits ∧
    check_task_limit dbC10 2
      = .decision
          (decide (get_active_tasks_count dbC10 2 < freeLimits.max_tasks))
          (get_active_tasks_count dbC10 2) freeLimits.max_tasks
          teamC10.subscription_type ∧
    check_member_limit dbC10 2
      = .decision
          (decide (get_team_member_count dbC10 2 < freeLimits.max_members))
          (get_team_member_count dbC10 2) freeLimits.max_members
          teamC10.subscription_type :=
  ⟨by decide, by decide,
   (C10_unknown_tier_treated_as_free dbC10 2 teamC10 (by decide) (by decide)).1,
   (C10_unknown_tier_treated_as_free dbC10 2 teamC10 (by decide) (by decide)).2.1,
   (C10_unknown_tier_treated_as_free dbC10 2 teamC10 (by decide) (by decide)).2.2⟩

/-- Fixture for C6: the wizard draft as it stands when the deadline
step is reached. -/
def draftC6 : Draft :=
  { team_id := 1
    title := "Отчёт"
    description := some "Описание"
    assignee_id := some 42
    deadline := none
    priority := none }

/-- Fixture for C8: a task authored by user 10. -/
def taskC8 : Task := { baseTask with task_id := 1, author_id := 10 }

/-- Store for the C8 counterexample and witness. -/
def dbC8 : DB := ⟨[], [], [taskC8], []⟩

theorem getTask_update_some (db : DB) (id : Nat) (s : String) (now : Int)
    (t : Task) (h : getTask db id = some t) :
    getTask (update_task_status db id s now).1 id
      = some (applyStatus s now t) := by
  rw [getTask_update, h, Option.map_some']

theorem applyStatus_author_id (s : String) (now : Int) (t : Task) :
    (applyStatus s now t).author_id = t.author_id := rfl

/-- C6, counterexample: the date "31.12.2020 10:00" parsed when the
current instant is exactly 31.12.2020 10:00 is at (not after) the
current instant, yet the validator accepts it and the wizard stores it
and advances to the priority step — only strictly-past dates are
rejected, because the code tests `dt < datetime.now()`. -/
theorem C6_counterexample :
    firstParse "31.12.2020 10:00" = some ⟨2020, 12, 31, 10, 0⟩ ∧
    validate_deadline "31.12.2020 10:00" ⟨2020, 12, 31, 10, 0⟩
      = some ⟨2020, 12, 31, 10, 0⟩ ∧
    task_deadline_received draftC6 "31.12.2020 10:00" ⟨2020, 12, 31, 10, 0⟩
      = (STATE_PRIORITY,
         { draftC6 with deadline := some ⟨2020, 12, 31, 10, 0⟩ }) := by
  decide

/-- C6, amended: every parsed date strictly before the current instant
is rejected — the validator returns none and the deadline handler
re-prompts, staying in STATE_DEADLINE with the draft unchanged.  A
date exactly at the current instant is accepted instead. -/
theorem C6_past_deadline_rejected (text : String) (now dt : DateTime)
    (draft : Draft) (hp : firstParse text = some dt)
    (hlt : dt.toMin < now.toMin) :
    validate_deadline text now = none ∧
    task_deadline_received draft text now = (STATE_DEADLINE, draft) := by
  have hv : validate_deadline text now = none := by
    unfold validate_deadline
    rw [hp]
    simp [hlt]
  exact ⟨hv, by unfold task_deadline_received; rw [hv]⟩

/-- Witness for C6: the scenario of the spec, date 31.12.2020 10:00
submitted when the current time (12.10.2026 09:00) is after it. -/
theorem C6_witness :
    firstParse "31.12.2020 10:00" = some ⟨2020, 12, 31, 10, 0⟩ ∧
    DateTime.toMin ⟨2020, 12, 31, 10, 0⟩ < DateTime.toMin ⟨2026, 10, 12, 9, 0⟩ ∧
    validate_deadline "31.12.2020 10:00" ⟨2026, 10, 12, 9, 0⟩ = none ∧
    task_deadline_received draftC6 "31.12.2020 10:00" ⟨2026, 10, 12, 9, 0⟩
      = (STATE_DEADLINE, draftC6) :=
  ⟨by decide, by decide,
   (C6_past_deadline_rejected "31.12.2020 10:00" ⟨2026, 10, 12, 9, 0⟩
     ⟨2020, 12, 31, 10, 0⟩ draftC6 (by decide) (by decide)).1,
   (C6_past_deadline_rejected "31.12.2020 10:00" ⟨2026, 10, 12, 9, 0⟩
     ⟨2020, 12, 31, 10, 0⟩ draftC6 (by decide) (by decide)).2⟩

/-- C8, counterexample: pressing the cancel button applies a status
transition (todo to cancelled) performed by some user who is not the
author, yet the cancel handler attempts no notification at all — so
not every non-author transition notifies the author. -/
theorem C8_counterexample :
    (getTask dbC8 1).map Task.status = some "todo" ∧
    (getTask (handle_cancel_task_callback dbC8 "cancel_1" 500).1 1).map
        Task.status = some "cancelled" ∧
    (handle_cancel_task_callback dbC8 "cancel_1" 500).2 = [] := by
  decide

/-- C8, amended: a transition applied through the status-change
callback notifies the author exactly when the changer is not the
author, while a transition applied through the cancel-task callback
never attempts any notification. -/
theorem C8_status_change_notification (db : DB) (uid : Nat)
    (uname data : String) (now : Int) (p idcs stcs : List Char)
    (task_id : Nat) (t0 : Task)
    (hsplit : splitStatusData data = [p, idcs, stcs])
    (hid : parseIntChars idcs = some task_id)
    (htask : getTask db task_id = some t0) :
    ((handle_status_callback db uid uname data now).2
      = (if t0.author_id = uid then []
         else [notify_status_changed t0.author_id
           (applyStatus (String.mk stcs) now t0) (String.mk stcs) uname]))
    ∧ ∀ (db2 : DB) (data2 : String) (now2 : Int),
        (handle_cancel_task_callback db2 data2 now2).2 = [] := by
  constructor
  · have hup : getTask (update_task_status db task_id (String.mk stcs) now).1
        task_id = some (applyStatus (String.mk stcs) now t0) :=
      getTask_update_some db task_id (String.mk stcs) now t0 htask
    unfold handle_status_callback
    rw [hsplit]
    simp only [hid, htask, Bool.not_true, hup, applyStatus_author_id,
      bne_iff_ne, ne_eq, ite_not]
    by_cases hau : t0.author_id = uid <;> simp [hau, update_task_status]
  · intro db2 data2 now2
    unfold handle_cancel_task_callback
    cases h : parseIntChars
        (replaceAllFuel "cancel_".data data2.data.length data2.data) <;>
      simp [h]

/-- Witness for C8: a non-author (user 20) changes task 1 of author 10
to done through the status callback — exactly one notification attempt
to the author; the cancel callback on the same store attempts none. -/
theorem C8_witness :
    splitStatusData "status_1_done" = ["status".data, "1".data, "done".data] ∧
    parseIntChars "1".data = some 1 ∧
    getTask dbC8 1 = some taskC8 ∧
    ((handle_status_callback dbC8 20 "Ира" "status_1_done" 500).2
      = (if taskC8.author_id = 20 then []
         else [notify_status_changed taskC8.author_id
           (applyStatus (String.mk "done".data) 500 taskC8)
           (String.mk "done".data) "Ира"])) ∧
    (handle_cancel_task_callback dbC8 "cancel_1" 700).2 = [] :=
  ⟨by decide, by decide, by decide,
   (C8_status_change_notification dbC8 20 "Ира" "status_1_done" 500
     "status".data "1".data "done".data 1 taskC8
     (by decide) (by decide) (by decide)).1,
   (C8_status_change_notification dbC8 20 "Ира" "status_1_done" 500
     "status".data "1".data "done".data 1 taskC8
     (by decide) (by decide) (by decide)).2 dbC8 "cancel_1" 700⟩

/-! Lemmas about the dispatch ledger and the deadline sweep. -/

theorem is_reminder_sent_eq_true_iff (db : DB) (id : Nat) (k : String) :
    is_reminder_sent db id k = true ↔ (id, k) ∈ db.reminders := by
  constructor
  · intro h
    obtain ⟨r, hr, hrk⟩ := List.any_eq_true.mp h
    simp only [Bool.and_eq_true, beq_iff_eq] at hrk
    have : r = (id, k) := Prod.ext_iff.mpr hrk
    exact this ▸ hr
  · intro h
    exact List.any_eq_true.mpr ⟨(id, k), h, by simp⟩

theorem mem_mark_reminder (db : DB) (tid : Nat) (kind : String)
    (id : Nat) (k : String) :
    (id, k) ∈ (mark_reminder_sent db tid kind).reminders
      ↔ (id, k) ∈ db.reminders ∨ (id = tid ∧ k = kind) := by
  simp [mark_reminder_sent, Prod.ext_iff]

theorem processTask_tasks (d : Nat → String → Bool) (kind : String)
    (acc : DB × List (Nat × String)) (t : Task) :
    ((processTask d kind acc t).1).tasks = acc.1.tasks := by
  unfold processTask
  split
  · rfl
  · split
    · rfl
    · split
      · rfl
      · rfl

theorem processTask_teams (d : Nat → String → Bool) (kind : String)
    (acc : DB × List (Nat × String)) (t : Task) :
    ((processTask d kind acc t).1).teams = acc.1.teams := by
  unfold processTask
  split
  · rfl
  · split
    · rfl
    · split
      · rfl
      · rfl

theorem processTasks_tasks (d : Nat → String → Bool) (kind : String)
    (tasks : List Task) (acc : DB × List (Nat × String)) :
    ((tasks.foldl (processTask d kind) acc).1).tasks = acc.1.tasks := by
  induction tasks generalizing acc with
  | nil => rfl
  | cons t ts ih => rw [List.foldl_cons, ih, processTask_tasks]

theorem processTasks_teams (d : Nat → String → Bool) (kind : String)
    (tasks : List Task) (acc : DB × List (Nat × String)) :
    ((tasks.foldl (processTask d kind) acc).1).teams = acc.1.teams := by
  induction tasks generalizing acc with
  | nil => rfl
  | cons t ts ih => rw [List.foldl_cons, ih, processTask_teams]

theorem get_upcoming_tasks_congr (db1 db2 : DB) (a b : Int)
    (ht : db1.tasks = db2.tasks) (hm : db1.teams = db2.teams) :
    get_upcoming_tasks db1 a b = get_upcoming_tasks db2 a b := by
  unfold get_upcoming_tasks
  rw [ht, hm]

theorem mem_reminders_processTask (d : Nat → String → Bool) (kind : String)
    (acc : DB × List (Nat × String)) (t : Task) (id : Nat) (k : String) :
    (id, k) ∈ ((processTask d kind acc t).1).reminders
      ↔ ((id, k) ∈ acc.1.reminders
          ∨ (k = kind ∧ t.task_id = id ∧ ∃ aid, t.assignee_id = some aid
              ∧ d aid (format_reminder t kind) = true)) := by
  unfold processTask
  by_cases hs : is_reminder_sent acc.1 t.task_id kind = true
  · rw [if_pos hs]
    have hmem : (t.task_id, kind) ∈ acc.1.reminders :=
      (is_reminder_sent_eq_true_iff _ _ _).mp hs
    constructor
    · exact Or.inl
    · rintro (h | ⟨hk, hid, _⟩)
      · exact h
      · rw [← hid, hk]
        exact hmem
  · rw [if_neg hs]
    cases ha : t.assignee_id with
    | none =>
      dsimp only
      constructor
      · exact Or.inl
      · rintro (h | ⟨_, _, aid, haid, _⟩)
        · exact h
        · exact Option.noConfusion haid
    | some aid =>
      dsimp only
      simp only [Option.some.injEq]
      by_cases hd : d aid (format_reminder t kind) = true
      · rw [if_pos hd, mem_mark_reminder]
        constructor
        · rintro (h | ⟨hid, hk⟩)
          · exact Or.inl h
          · exact Or.inr ⟨hk, hid.symm, aid, rfl, hd⟩
        · rintro (h | ⟨hk, hid, aid', haid', hd'⟩)
          · exact Or.inl h
          · exact Or.inr ⟨hid.symm, hk⟩
      · rw [if_neg hd]
        constructor
        · exact Or.inl
        · rintro (h | ⟨hk, hid, aid', haid', hd'⟩)
          · exact h
          · subst haid'
            exact absurd hd' hd

theorem mem_reminders_processTasks (d : Nat → String → Bool) (kind : String)
    (tasks : List Task) (acc : DB × List (Nat × String)) (id : Nat)
    (k : String) :
    (id, k) ∈ ((tasks.foldl (processTask d kind) acc).1).reminders
      ↔ ((id, k) ∈ acc.1.reminders
          ∨ (k = kind ∧ ∃ t ∈ tasks, t.task_id = id
              ∧ ∃ aid, t.assignee_id = some aid
              ∧ d aid (format_reminder t kind) = true)) := by
  induction tasks generalizing acc with
  | nil => simp
  | cons t ts ih =>
    rw [List.foldl_cons, ih, mem_reminders_processTask]
    constructor
    · rintro ((h | ⟨hk, hid, haid⟩) | ⟨hk, u, hu, hrest⟩)
      · exact Or.inl h
      · exact Or.inr ⟨hk, t, List.mem_cons_self t ts, hid, haid⟩
      · exact Or.inr ⟨hk, u, List.mem_cons_of_mem t hu, hrest⟩
    · rintro (h | ⟨hk, u, hu, hrest⟩)
      · exact Or.inl (Or.inl h)
      · rcases List.mem_cons.mp hu with rfl | hu'
        · exact Or.inl (Or.inr ⟨hk, hrest⟩)
        · exact Or.inr ⟨hk, u, hu', hrest⟩

theorem sweepWindow_tasks (d : Nat → String → Bool) (kind : String)
    (a b : Int) (acc : DB × List (Nat × String)) :
    ((sweepWindow d kind a b acc).1).tasks = acc.1.tasks := by
  unfold sweepWindow
  exact processTasks_tasks _ _ _ _

theorem sweepWindow_teams (d : Nat → String → Bool) (kind : String)
    (a b : Int) (acc : DB × List (Nat × String)) :
    ((sweepWindow d kind a b acc).1).teams = acc.1.teams := by
  unfold sweepWindow
  exact processTasks_teams _ _ _ _

theorem mem_reminders_sweepWindow (d : Nat → String → Bool) (kind : String)
    (a b : Int) (acc : DB × List (Nat × String)) (id : Nat) (k : String) :
    (id, k) ∈ ((sweepWindow d kind a b acc).1).reminders
      ↔ ((id, k) ∈ acc.1.reminders
          ∨ (k = kind ∧ ∃ t ∈ get_upcoming_tasks acc.1 a b, t.task_id = id
              ∧ ∃ aid, t.assignee_id = some aid
              ∧ d aid (format_reminder t kind) = true)) := by
  unfold sweepWindow
  exact mem_reminders_processTasks _ _ _ _ _ _

theorem mem_reminders_check (db : DB) (now : Int) (d : Nat → String → Bool)
    (id : Nat) (k : String) :
    (id, k) ∈ ((check_upcoming_deadlines db now d).1).reminders
      ↔ ((id, k) ∈ db.reminders
          ∨ ∃ w ∈ reminderWindows now, k = w.1
              ∧ ∃ t ∈ get_upcoming_tasks db w.2.1 w.2.2, t.task_id = id
                  ∧ ∃ aid, t.assignee_id = some aid
                      ∧ d aid (format_reminder t w.1) = true) := by
  unfold check_upcoming_deadlines reminderWindows
  rw [List.foldl_cons, List.foldl_cons, List.foldl_cons, List.foldl_nil]
  dsimp only
  rw [mem_reminders_sweepWindow,
    get_upcoming_tasks_congr _ db (now - 15) (now + 15)
      (by rw [sweepWindow_tasks, sweepWindow_tasks])
      (by rw [sweepWindow_teams, sweepWindow_teams]),
    mem_reminders_sweepWindow,
    get_upcoming_tasks_congr _ db (now + 150) (now + 210)
      (by rw [sweepWindow_tasks])
      (by rw [sweepWindow_teams]),
    mem_reminders_sweepWindow]
  simp only [List.mem_cons, List.not_mem_nil, or_false, exists_eq_or_imp,
    exists_eq_left]
  constructor
  · rintro (((h | h) | h) | h)
    · exact Or.inl h
    · exact Or.inr (Or.inl h)
    · exact Or.inr (Or.inr (Or.inl h))
    · exact Or.inr (Or.inr (Or.inr h))
  · rintro (h | h | h | h)
    · exact Or.inl (Or.inl (Or.inl h))
    · exact Or.inl (Or.inl (Or.inr h))
    · exact Or.inl (Or.inr h)
    · exact Or.inr h

/-- Fixture for C1 and C3: task 7, assigned to user 42, deadline at
minute 1440, inside the `now` window of a sweep at now = 1440. -/
def taskC1 : Task :=
  { baseTask with task_id := 7, assignee_id := some 42, deadline := some 1440 }

/-- Team row for the C1/C3 fixture (the sweep query joins teams). -/
def teamC1 : Team :=
  { team_id := 1
    name := "Alpha"
    owner_id := 10
    invite_code := "c1"
    subscription_type := "free"
    subscription_expires := none }

/-- Store for the C1/C3 counterexamples and witnesses. -/
def dbC1 : DB := ⟨[teamC1], [⟨1, 10, "owner"⟩, ⟨1, 42, "member"⟩], [taskC1], []⟩

/-- C1, counterexample: task 7 is a candidate of the `now` window with
an assignee and no dispatch record; the sweep runs and every delivery
raises — afterwards the ledger is still empty, so the record is NOT
inserted when the send fails (it is inserted only after a send that
returns). -/
theorem C1_counterexample :
    get_upcoming_tasks dbC1 1425 1455 = [taskC1] ∧
    taskC1.assignee_id = some 42 ∧
    is_reminder_sent dbC1 7 "now" = false ∧
    ("now", (1425 : Int), (1455 : Int)) ∈ reminderWindows 1440 ∧
    (check_upcoming_deadlines dbC1 1440 (fun _ _ => false)).1.reminders = [] := by
  decide

/-- C1, amended: for a candidate task of a window (with an assignee
and no prior dispatch record, task ids unique), the dispatch record is
inserted by the sweep if and only if the send call returned without
raising; a failed delivery leaves no record, so that window will be
retried by a later sweep. -/
theorem C1_mark_only_on_success (db : DB) (now : Int)
    (deliver : Nat → String → Bool) (kind : String) (a b : Int) (t : Task)
    (aid : Nat) (hpk : (db.tasks.map Task.task_id).Nodup)
    (hw : (kind, a, b) ∈ reminderWindows now)
    (ht : t ∈ get_upcoming_tasks db a b)
    (haid : t.assignee_id = some aid)
    (hnew : (t.task_id, kind) ∉ db.reminders) :
    (t.task_id, kind) ∈ ((check_upcoming_deadlines db now deliver).1).reminders
      ↔ deliver aid (format_reminder t kind) = true := by
  rw [mem_reminders_check]
  constructor
  · rintro (h | ⟨w, hwmem, hk, u, hu, huid, aid', ha', hd'⟩)
    · exact absurd h hnew
    · have hu' : u ∈ db.tasks := (List.mem_filter.mp hu).1
      have ht' : t ∈ db.tasks := (List.mem_filter.mp ht).1
      have hut : u = t :=
        List.inj_on_of_nodup_map hpk hu' ht' (by rw [huid])
      rw [hut] at ha' hd'
      rw [← hk] at hd'
      rw [Option.some.inj (haid.symm.trans ha')]
      exact hd'
  · intro hd
    exact Or.inr ⟨(kind, a, b), hw, rfl, t, ht, rfl, aid, haid, hd⟩

/-- Witness for C1: on the concrete fixture with a transport that
returns, the record (7, now) is in the ledger after the sweep. -/
theorem C1_witness :
    (dbC1.tasks.map Task.task_id).Nodup ∧
    ("now", (1425 : Int), (1455 : Int)) ∈ reminderWindows 1440 ∧
    taskC1 ∈ get_upcoming_tasks dbC1 1425 1455 ∧
    taskC1.assignee_id = some 42 ∧
    (taskC1.task_id, "now") ∉ dbC1.reminders ∧
    ((taskC1.task_id, "now")
        ∈ ((check_upcoming_deadlines dbC1 1440 (fun _ _ => true)).1).reminders
      ↔ (fun (_ : Nat) (_ : String) => true) 42 (format_reminder taskC1 "now")
          = true) :=
  ⟨by decide, by decide, by decide, by decide, by decide,
   C1_mark_only_on_success dbC1 1440 (fun _ _ => true) "now" 1425 1455 taskC1
     42 (by decide) (by decide) (by decide) (by decide) (by decide)⟩

theorem processTasks_no_op (d : Nat → String → Bool) (kind : String)
    (tasks : List Task) (db : DB) (sent : List (Nat × String))
    (h : ∀ t ∈ tasks, t.assignee_id = none
        ∨ is_reminder_sent db t.task_id kind = true) :
    tasks.foldl (processTask d kind) (db, sent) = (db, sent) := by
  induction tasks with
  | nil => rfl
  | cons t ts ih =>
    have hstep : processTask d kind (db, sent) t = (db, sent) := by
      unfold processTask
      dsimp only
      rcases h t (List.mem_cons_self t ts) with ha | hs
      · by_cases hsent : is_reminder_sent db t.task_id kind = true
        · rw [if_pos hsent]
        · rw [if_neg hsent, ha]
      · rw [if_pos hs]
    rw [List.foldl_cons, hstep,
      ih (fun u hu => h u (List.mem_cons_of_mem t hu))]

theorem sweepWindow_no_op (d : Nat → String → Bool) (kind : String)
    (a b : Int) (db : DB) (sent : List (Nat × String))
    (h : ∀ t ∈ get_upcoming_tasks db a b, t.assignee_id = none
        ∨ is_reminder_sent db t.task_id kind = true) :
    sweepWindow d kind a b (db, sent) = (db, sent) := by
  unfold sweepWindow
  exact processTasks_no_op d kind _ db sent h

theorem check_tasks_eq (db : DB) (now : Int) (d : Nat → String → Bool) :
    ((check_upcoming_deadlines db now d).1).tasks = db.tasks := by
  unfold check_upcoming_deadlines reminderWindows
  rw [List.foldl_cons, List.foldl_cons, List.foldl_cons, List.foldl_nil]
  dsimp only
  rw [sweepWindow_tasks, sweepWindow_tasks, sweepWindow_tasks]

theorem check_teams_eq (db : DB) (now : Int) (d : Nat → String → Bool) :
    ((check_upcoming_deadlines db now d).1).teams = db.teams := by
  unfold check_upcoming_deadlines reminderWindows
  rw [List.foldl_cons, List.foldl_cons, List.foldl_cons, List.foldl_nil]
  dsimp only
  rw [sweepWindow_teams, sweepWindow_teams, sweepWindow_teams]

/-- C3, counterexample: the first sweep over the fixture reaches
candidate task 7 but its delivery raises, so nothing is marked; an
immediately repeated sweep over the same store (no new tasks) delivers
the (7, now) notification — the second run is not silent, because a
failed attempt of the first run is not blocked by a dispatch record. -/
theorem C3_counterexample :
    (check_upcoming_deadlines dbC1 1440 (fun _ _ => false)).2 = [] ∧
    (check_upcoming_deadlines
        ((check_upcoming_deadlines dbC1 1440 (fun _ _ => false)).1) 1440
        (fun _ _ => true)).2 = [(7, "now")] := by
  decide

/-- C3, amended: when every delivery of the first sweep succeeds,
an immediately repeated sweep over the resulting store delivers zero
notifications, whatever its transport does — each pair delivered in
the first run is blocked by its dispatch record. -/
theorem C3_second_sweep_silent_after_success (db : DB) (now : Int)
    (d2 : Nat → String → Bool) :
    (check_upcoming_deadlines
        ((check_upcoming_deadlines db now (fun _ _ => true)).1) now d2).2
      = [] := by
  set db1 := (check_upcoming_deadlines db now (fun _ _ => true)).1 with hdb1
  have htasks : db1.tasks = db.tasks := check_tasks_eq db now _
  have hteams : db1.teams = db.teams := check_teams_eq db now _
  have hmarked : ∀ (kind : String) (a b : Int),
      (kind, a, b) ∈ reminderWindows now →
      ∀ t ∈ get_upcoming_tasks db1 a b, t.assignee_id = none
        ∨ is_reminder_sent db1 t.task_id kind = true := by
    intro kind a b hw t ht
    cases ha : t.assignee_id with
    | none => exact Or.inl rfl
    | some aid =>
      right
      apply (is_reminder_sent_eq_true_iff _ _ _).mpr
      rw [hdb1]
      apply (mem_reminders_check db now _ _ _).mpr
      right
      rw [get_upcoming_tasks_congr db1 db a b htasks hteams] at ht
      exact ⟨(kind, a, b), hw, rfl, t, ht, rfl, aid, ha, rfl⟩
  have e1 : sweepWindow d2 "24h" (now + 1410) (now + 1470) (db1, [])
      = (db1, []) :=
    sweepWindow_no_op _ _ _ _ _ _
      (hmarked "24h" _ _ (by simp [reminderWindows]))
  have e2 : sweepWindow d2 "3h" (now + 150) (now + 210) (db1, [])
      = (db1, []) :=
    sweepWindow_no_op _ _ _ _ _ _
      (hmarked "3h" _ _ (by simp [reminderWindows]))
  have e3 : sweepWindow d2 "now" (now - 15) (now + 15) (db1, [])
      = (db1, []) :=
    sweepWindow_no_op _ _ _ _ _ _
      (hmarked "now" _ _ (by simp [reminderWindows]))
  show (check_upcoming_deadlines db1 now d2).2 = []
  unfold check_upcoming_deadlines reminderWindows
  rw [List.foldl_cons, List.foldl_cons, List.foldl_cons, List.foldl_nil]
  dsimp only
  rw [e1, e2, e3]

/-! Lemmas about the daily digest. -/

theorem filter_isEmpty_eq_false_iff {α : Type} (p : α → Bool) (l : List α) :
    ((l.filter p).isEmpty = false) ↔ ∃ x ∈ l, p x = true := by
  induction l with
  | nil => simp
  | cons x xs ih =>
    by_cases h : p x = true <;> simp [List.filter_cons, h, ih]

theorem mem_sortByDeadline (l : List Task) (t : Task) :
    t ∈ sortByDeadline l ↔ t ∈ l :=
  (List.perm_insertionSort _ l).mem_iff

theorem mem_send_daily_summary (db : DB) (now : Int) (uid : Nat)
    (m : DigestMessage) :
    (uid, m) ∈ send_daily_summary db now
      ↔ uid ∈ digestUsers db ∧ buildDigest db now uid = some m := by
  unfold send_daily_summary
  rw [List.mem_filterMap]
  constructor
  · rintro ⟨u, hu, hmap⟩
    cases hb : buildDigest db now u with
    | none => rw [hb] at hmap; simp at hmap
    | some mu =>
      rw [hb] at hmap
      simp only [Option.map_some', Option.some.injEq, Prod.mk.injEq] at hmap
      obtain ⟨h1, h2⟩ := hmap
      subst h1
      subst h2
      exact ⟨hu, hb⟩
  · rintro ⟨hu, hb⟩
    exact ⟨uid, hu, by rw [hb, Option.map_some']⟩

theorem bool_not_eq_true_iff (b : Bool) : ((!b) = true) ↔ (b = false) := by
  cases b <;> simp

theorem bool_and_eq_false_iff (a b : Bool) :
    ((a && b) = false) ↔ (a = false ∨ b = false) := by
  cases a <;> cases b <;> simp

theorem ite_none_some_eq_some_iff {α : Type} (c : Bool) (x : α) :
    (∃ m, (if c = true then none else some x) = some m) ↔ c = false := by
  cases c <;> simp

theorem sections_isEmpty_false_iff (db : DB) (now : Int) (uid : Nat) :
    ((((userTeamRows db uid).map (fun tr =>
        (tr.2, (get_tasks_today db now tr.1).filter
          (fun t => t.assignee_id == some uid)))).filter
        (fun s => !s.2.isEmpty)).isEmpty = false)
      ↔ ∃ tr ∈ userTeamRows db uid,
          ((get_tasks_today db now tr.1).filter
            (fun t => t.assignee_id == some uid)).isEmpty = false := by
  rw [filter_isEmpty_eq_false_iff]
  constructor
  · rintro ⟨s, hs, hp⟩
    obtain ⟨tr, htr, rfl⟩ := List.mem_map.mp hs
    exact ⟨tr, htr, (bool_not_eq_true_iff _).mp hp⟩
  · rintro ⟨tr, htr, hne⟩
    exact ⟨_, List.mem_map_of_mem _ htr, (bool_not_eq_true_iff _).mpr hne⟩

theorem buildDigest_isSome_iff (db : DB) (now : Int) (uid : Nat) :
    (∃ m, buildDigest db now uid = some m)
      ↔ ((∃ tr ∈ userTeamRows db uid,
            ((get_tasks_today db now tr.1).filter
              (fun t => t.assignee_id == some uid)).isEmpty = false)
          ∨ ((get_overdue_tasks db now).filter
              (fun t => t.assignee_id == some uid)).isEmpty = false) := by
  simp only [buildDigest]
  rw [ite_none_some_eq_some_iff, bool_and_eq_false_iff,
    sections_isEmpty_false_iff]

theorem today_filter_ne_iff (db : DB) (now : Int) (uid tid : Nat)
    (hvalid : ∀ t ∈ db.tasks, t.status
      ∈ (["todo", "in_progress", "done", "cancelled"] : List String)) :
    (((get_tasks_today db now tid).filter
        (fun t => t.assignee_id == some uid)).isEmpty = false)
      ↔ ∃ t ∈ db.tasks, t.team_id = tid ∧ t.assignee_id = some uid
          ∧ (t.status = "todo" ∨ t.status = "in_progress")
          ∧ ∃ dl, t.deadline = some dl ∧ dl.fdiv 1440 = now.fdiv 1440 := by
  rw [filter_isEmpty_eq_false_iff]
  constructor
  · rintro ⟨t, ht, hass⟩
    unfold get_tasks_today at ht
    rw [mem_sortByDeadline, List.mem_filter] at ht
    obtain ⟨htm, hbool⟩ := ht
    simp only [Bool.and_eq_true, beq_iff_eq] at hbool
    obtain ⟨⟨hteam, hday⟩, hstat⟩ := hbool
    refine ⟨t, htm, hteam, beq_iff_eq.mp hass, ?_, ?_⟩
    · rw [bool_not_eq_true_iff] at hstat
      have hnd : t.status ≠ "done" ∧ t.status ≠ "cancelled" := by
        constructor
        · intro he
          rw [he] at hstat
          simp at hstat
        · intro he
          rw [he] at hstat
          simp at hstat
      rcases (by simpa using hvalid t htm : t.status = "todo"
          ∨ t.status = "in_progress" ∨ t.status = "done"
          ∨ t.status = "cancelled") with h | h | h | h
      · exact Or.inl h
      · exact Or.inr h
      · exact absurd h hnd.1
      · exact absurd h hnd.2
    · cases hd : t.deadline with
      | none => rw [hd] at hday; cases hday
      | some dl => rw [hd] at hday; exact ⟨dl, rfl, beq_iff_eq.mp hday⟩
  · rintro ⟨t, htm, hteam, hass, hstat, dl, hdl, hday⟩
    refine ⟨t, ?_, by simp [hass]⟩
    unfold get_tasks_today
    rw [mem_sortByDeadline, List.mem_filter]
    refine ⟨htm, ?_⟩
    rcases hstat with h | h <;> simp [hteam, hdl, hday, h]

theorem overdue_filter_ne_iff (db : DB) (now : Int) (uid : Nat) :
    (((get_overdue_tasks db now).filter
        (fun t => t.assignee_id == some uid)).isEmpty = false)
      ↔ ∃ t ∈ db.tasks, t.assignee_id = some uid
          ∧ (t.status = "todo" ∨ t.status = "in_progress")
          ∧ ∃ dl, t.deadline = some dl ∧ dl < now := by
  rw [filter_isEmpty_eq_false_iff]
  constructor
  · rintro ⟨t, ht, hass⟩
    unfold get_overdue_tasks at ht
    rw [mem_sortByDeadline, List.mem_filter] at ht
    obtain ⟨htm, hbool⟩ := ht
    simp only [Bool.and_eq_true] at hbool
    obtain ⟨hstat, hdl⟩ := hbool
    refine ⟨t, htm, beq_iff_eq.mp hass, ?_, ?_⟩
    · simp only [Bool.or_eq_true, beq_iff_eq] at hstat
      exact hstat
    · cases hd : t.deadline with
      | none => rw [hd] at hdl; cases hdl
      | some dl => rw [hd] at hdl; exact ⟨dl, rfl, of_decide_eq_true hdl⟩
  · rintro ⟨t, htm, hass, hstat, dl, hdl, hlt⟩
    refine ⟨t, ?_, by simp [hass]⟩
    unfold get_overdue_tasks
    rw [mem_sortByDeadline, List.mem_filter]
    refine ⟨htm, ?_⟩
    rcases hstat with h | h <;> simp [hdl, hlt, h]

/-- C7: in a digest run, an enumerated user is sent a digest message
iff they have a qualifying task — a non-terminal task due today
assigned to them in one of their teams, or a non-terminal overdue task
assigned to them — and the overdue section of any sent message lists
at most five tasks.  (The hypothesis that every stored status is in
the status enumeration makes non-terminal unambiguous.) -/
theorem C7_daily_digest (db : DB) (now : Int) (uid : Nat)
    (hvalid : ∀ t ∈ db.tasks, t.status
      ∈ (["todo", "in_progress", "done", "cancelled"] : List String))
    (henum : uid ∈ digestUsers db) :
    ((∃ m, (uid, m) ∈ send_daily_summary db now)
      ↔ ((∃ tr ∈ userTeamRows db uid, ∃ t ∈ db.tasks,
            t.team_id = tr.1 ∧ t.assignee_id = some uid
            ∧ (t.status = "todo" ∨ t.status = "in_progress")
            ∧ ∃ dl, t.deadline = some dl ∧ dl.fdiv 1440 = now.fdiv 1440)
        ∨ (∃ t ∈ db.tasks, t.assignee_id = some uid
            ∧ (t.status = "todo" ∨ t.status = "in_progress")
            ∧ ∃ dl, t.deadline = some dl ∧ dl < now)))
    ∧ ∀ m, (uid, m) ∈ send_daily_summary db now → m.overdue.length ≤ 5 := by
  constructor
  · have h1 : (∃ m, (uid, m) ∈ send_daily_summary db now)
        ↔ ∃ m, buildDigest db now uid = some m := by
      constructor
      · rintro ⟨m, hm⟩
        exact ⟨m, ((mem_send_daily_summary db now uid m).mp hm).2⟩
      · rintro ⟨m, hm⟩
        exact ⟨m, (mem_send_daily_summary db now uid m).mpr ⟨henum, hm⟩⟩
    rw [h1, buildDigest_isSome_iff]
    constructor
    · rintro (⟨tr, htr, hne⟩ | h)
      · exact Or.inl ⟨tr, htr,
          (today_filter_ne_iff db now uid tr.1 hvalid).mp hne⟩
      · exact Or.inr ((overdue_filter_ne_iff db now uid).mp h)
    · rintro (⟨tr, htr, hex⟩ | h)
      · exact Or.inl ⟨tr, htr,
          (today_filter_ne_iff db now uid tr.1 hvalid).mpr hex⟩
      · exact Or.inr ((overdue_filter_ne_iff db now uid).mpr h)
  · intro m hm
    have hb := ((mem_send_daily_summary db now uid m).mp hm).2
    simp only [buildDigest] at hb
    split at hb
    · cases hb
    · rw [← Option.some.inj hb]
      simp

/-- Witness for C7: on the concrete fixture, user 42 (member of team 1
with task 7 due on the same day as the run instant 1500) satisfies
both conjuncts. -/
theorem C7_witness :
    (∀ t ∈ dbC1.tasks, t.status
      ∈ (["todo", "in_progress", "done", "cancelled"] : List String)) ∧
    42 ∈ digestUsers dbC1 ∧
    ((∃ m, (42, m) ∈ send_daily_summary dbC1 1500)
      ↔ ((∃ tr ∈ userTeamRows dbC1 42, ∃ t ∈ dbC1.tasks,
            t.team_id = tr.1 ∧ t.assignee_id = some 42
            ∧ (t.status = "todo" ∨ t.status = "in_progress")
            ∧ ∃ dl, t.deadline = some dl ∧ dl.fdiv 1440 = (1500 : Int).fdiv 1440)
        ∨ (∃ t ∈ dbC1.tasks, t.assignee_id = some 42
            ∧ (t.status = "todo" ∨ t.status = "in_progress")
            ∧ ∃ dl, t.deadline = some dl ∧ dl < 1500))) ∧
    (∀ m, (42, m) ∈ send_daily_summary dbC1 1500 → m.overdue.length ≤ 5) :=
  ⟨by decide, by decide,
   (C7_daily_digest dbC1 1500 42 (by decide) (by decide)).1,
   (C7_daily_digest dbC1 1500 42 (by decide) (by decide)).2⟩

end TeamBot
